import Mathlib

/-!
Shallow embedding of the vctscorigami match-data pipeline.

The embedding follows the Python sources:
  src/database.py      : add_matches_batch, match_exists (ingestion/dedup layer)
  src/data_fetcher.py  : fetch_page, get_match_page_urls, parse_match_page,
                         extract_date_from_match_page, extract_kills_from_cell,
                         extract_deaths_from_cell, fetch_tournament_data
  src/run_scraper.py   : run_scraper

The SQLite/PostgreSQL store is modelled as a list of rows (DB below); each
insert is visible to subsequent lookups of the same batch, exactly as the
committed single-connection SQLite path behaves.  BeautifulSoup query results
are modelled as structured inputs (the DOM values the Python code reads), and
the pure logic applied to them (regexes, int conversion, truthiness, control
flow) is translated faithfully.  Python datetimes are modelled only as far as
the strptime/strftime directives actually used by the code.
-/

namespace Scorigami

/-! ## Python string primitives -/

/-- Python whitespace class (ASCII part of the regex class for backslash-s and
of str.strip): space, tab, newline, carriage return, vertical tab, form feed. -/
def pyWs (c : Char) : Bool :=
  c = ' ' || c = '\t' || c = '\n' || c = '\r' || c = '\x0b' || c = '\x0c'

/-- str.strip on a char list: drop whitespace from both ends. -/
def pyStripL (cs : List Char) : List Char :=
  ((cs.dropWhile pyWs).reverse.dropWhile pyWs).reverse

/-- str.strip. -/
def pyStrip (s : String) : String :=
  String.mk (pyStripL s.toList)

/-- re.sub of one-or-more whitespace with a single space: the Boolean flag
records whether the previous character was part of a whitespace run. -/
def wsToSpaceAux : Bool → List Char → List Char
  | _, [] => []
  | inRun, c :: rest =>
    if pyWs c then
      if inRun then wsToSpaceAux true rest
      else ' ' :: wsToSpaceAux true rest
    else c :: wsToSpaceAux false rest

/-- re.sub of a whitespace run with a single space over a whole string. -/
def wsToSpace (s : String) : String :=
  String.mk (wsToSpaceAux false s.toList)

/-- Numeric value of a list of decimal digit characters. -/
def digitsVal (ds : List Char) : Nat :=
  ds.foldl (fun a c => a * 10 + (c.toNat - 48)) 0

/-- Well-formed Python int digit sequence: digit groups separated by single
underscores (no leading, trailing or doubled underscore).  Returns the digits
with underscores removed.  First argument: digits accumulated in reverse. -/
def intDigitsGo : List Char → List Char → Option (List Char)
  | acc, [] => some acc.reverse
  | acc, c :: rest =>
    if c = '_' then
      match rest with
      | [] => none
      | d :: rest2 => if d.isDigit then intDigitsGo (d :: acc) rest2 else none
    else if c.isDigit then intDigitsGo (c :: acc) rest
    else none

/-- Digit part of a Python int literal body (after the optional sign). -/
def intDigits : List Char → Option (List Char)
  | [] => none
  | c :: rest => if c.isDigit then intDigitsGo [c] rest else none

/-- Python int(str): strip whitespace, optional sign, decimal digits possibly
grouped by single underscores.  none models a ValueError.  (Unicode digits and
non-ASCII whitespace accepted by CPython are outside the model.) -/
def pyInt? (s : String) : Option Int :=
  match pyStripL s.toList with
  | '+' :: rest => (intDigits rest).map (fun ds => (digitsVal ds : Int))
  | '-' :: rest => (intDigits rest).map (fun ds => -(digitsVal ds : Int))
  | rest => (intDigits rest).map (fun ds => (digitsVal ds : Int))

/-- Python str.isdigit for ASCII content: nonempty and all characters digits. -/
def pyIsDigit (s : String) : Bool :=
  !s.toList.isEmpty && s.toList.all Char.isDigit

/-- Case-insensitive prefix test of a name against the input characters. -/
def ciStarts : List Char → List Char → Bool
  | [], _ => true
  | _ :: _, [] => false
  | n :: ns, c :: cs => n.toLower = c.toLower && ciStarts ns cs

/-- Substring containment test (Python in operator on str). -/
def containsStr (hay sub : String) : Bool :=
  go hay.toList sub.toList
where
  go : List Char → List Char → Bool
    | _, [] => true
    | [], _ :: _ => false
    | c :: rest, s => List.isPrefixOf s (c :: rest) || go rest s

/-! ## Data model

MatchRecord models both the dicts built by the extractor and the rows of the
matches table (surrogate id and created_at timestamp are not part of any
claim and are omitted). -/

structure MatchRecord where
  description : String
  map : String
  player : String
  kills : Int
  deaths : Int
  matchDate : Option String := none
  result : Option String := none
  team : Option String := none
  tournamentId : Option Int := none
  matchId : Option String := none
deriving DecidableEq

/-- The matches table: one row per stored record, in insertion order. -/
abbrev DB := List MatchRecord

/-- Python truthiness of an optional string (None and the empty string are
falsy); returns the string when truthy. -/
def truthyOpt : Option String → Option String
  | some s => if s = "" then none else some s
  | none => none

/-- The natural key of a record: the match-id key when match_id is truthy,
else the description fallback key (spec section 3). -/
def natKey (m : MatchRecord) : (String × String × String) ⊕ (String × String × String) :=
  match truthyOpt m.matchId with
  | some mid => Sum.inl (mid, m.map, m.player)
  | none => Sum.inr (m.description, m.map, m.player)

/-! ## Ingestion / dedup layer (src/database.py) -/

/-- SQL row predicate of the match-id lookup: match_id = ? AND map = ? AND
player = ? (a NULL stored match_id never equals a string parameter). -/
def rowHitMid (mid mapName player : String) (r : MatchRecord) : Bool :=
  r.matchId == some mid && r.map == mapName && r.player == player

/-- SQL row predicate of the fallback lookup: description = ? AND map = ? AND
player = ?. -/
def rowHitDesc (desc mapName player : String) (r : MatchRecord) : Bool :=
  r.description == desc && r.map == mapName && r.player == player

/-- The duplicate check performed for one incoming record of
add_matches_batch: SELECT on the match-id key when match_id is truthy, else
on the description key. -/
def lookupHit (db : DB) (m : MatchRecord) : Bool :=
  match truthyOpt m.matchId with
  | some mid => db.any (rowHitMid mid m.map m.player)
  | none => db.any (rowHitDesc m.description m.map m.player)

/-- One iteration of the add_matches_batch loop over state
(table rows, inserted, skipped).  The INSERT itself cannot fail in the model
(the table carries no uniqueness constraint), so the except-branch that counts
a failed insert as skipped is unreachable here. -/
def batchStep (st : DB × Nat × Nat) (m : MatchRecord) : DB × Nat × Nat :=
  if lookupHit st.1 m then (st.1, st.2.1, st.2.2 + 1)
  else (st.1 ++ [m], st.2.1 + 1, st.2.2)

/-- add_matches_batch: returns the updated table together with the
(inserted, skipped) pair the Python function returns.  The Python parameter
is called matches, a reserved word in Lean, hence ms. -/
def add_matches_batch (db : DB) (ms : List MatchRecord) : DB × Nat × Nat :=
  ms.foldl batchStep (db, 0, 0)

/-- Message of the NameError raised by the fallback branch of match_exists,
which reads the undefined global name description. -/
def nameErrorMsg : String := "NameError: name description is not defined"

/-- match_exists: on a truthy match_id it runs the match-id SELECT and
returns a Boolean; on a falsy match_id it evaluates the undefined name
description while building the query parameters and raises NameError. -/
def match_exists (db : DB) (matchId : Option String) (mapName player : String) :
    Except String Bool :=
  match truthyOpt matchId with
  | some mid => Except.ok (db.any (rowHitMid mid mapName player))
  | none => Except.error nameErrorMsg

/-- Pairwise distinctness of natural keys over a row list. -/
def keyDistinct (db : DB) : Prop :=
  db.Pairwise (fun a b => natKey a ≠ natKey b)

instance (db : DB) : Decidable (keyDistinct db) := by
  unfold keyDistinct; infer_instance

/-- Cross-branch collision: a record b without a truthy match_id is found by
its description lookup against a stored record a that does carry a truthy
match_id, although their natural keys differ.  This is the one way the
lookup relation of add_matches_batch is coarser than natural-key equality. -/
def crossPair (a b : MatchRecord) : Prop :=
  truthyOpt b.matchId = none ∧ truthyOpt a.matchId ≠ none ∧
  a.description = b.description ∧ a.map = b.map ∧ a.player = b.player

instance (a b : MatchRecord) : Decidable (crossPair a b) := by
  unfold crossPair; infer_instance

/-! ## Transport (src/data_fetcher.py, fetch_page) -/

/-- Observable outcome of fetch_page: the returned value, the number of
fetch attempts performed, and the sequence of sleep durations in seconds. -/
structure FetchResult where
  result : Option String
  attempts : Nat
  sleeps : List Nat
deriving DecidableEq

/-- The for-attempt-in-range loop of fetch_page.  The oracle gives the
outcome of requests.get plus raise_for_status for each attempt index (none
models a RequestException).  Arguments: remaining attempt indices, attempts
performed so far, sleeps so far in reverse. -/
def fetchAux (oracle : Nat → Option String) (retries : Nat) :
    List Nat → Nat → List Nat → FetchResult
  | [], done, sleeps => ⟨none, done, sleeps.reverse⟩
  | a :: rest, done, sleeps =>
    match oracle a with
    | some s => ⟨some s, done + 1, sleeps.reverse⟩
    | none =>
      if a < retries - 1 then fetchAux oracle retries rest (done + 1) (2 ^ a :: sleeps)
      else fetchAux oracle retries rest (done + 1) sleeps

/-- fetch_page with an explicit retry count (the Python default is 3). -/
def fetch_page (oracle : Nat → Option String) (retries : Nat) : FetchResult :=
  fetchAux oracle retries (List.range retries) 0 []

/-! ## Discovery (src/data_fetcher.py, get_match_page_urls) -/

def VLR_BASE_URL : String := "https://www.vlr.gg"

/-- re.search of slash, digit group, slash in a URL: first occurrence wins,
the digit group is returned (match-id extraction in parse_match_page). -/
def findIdInUrl : List Char → Option String
  | [] => none
  | c :: rest =>
    if c = '/' then
      let ds := rest.takeWhile Char.isDigit
      match rest.drop ds.length with
      | '/' :: _ => if ds.isEmpty then findIdInUrl rest else some (String.mk ds)
      | _ => findIdInUrl rest
    else findIdInUrl rest

/-- re.match of caret, slash, digits, slash against a href (anchored prefix
test used by get_match_page_urls). -/
def startsNumPath (s : String) : Bool :=
  match s.toList with
  | '/' :: rest =>
    let ds := rest.takeWhile Char.isDigit
    match rest.drop ds.length with
    | '/' :: _ => !ds.isEmpty
    | _ => false
  | _ => false

/-- The anchors-with-href of a fetched listing page, as BeautifulSoup would
enumerate them. -/
structure ListingPage where
  hrefs : List String
deriving DecidableEq

/-- get_match_page_urls.  pages models the result of fetch_page per URL
(None after exhausted retries); listingOf models BeautifulSoup applied to the
fetched HTML.  The Python list-of-set dedup has unspecified order; eraseDups
keeps first occurrences, and no claim depends on the order. -/
def get_match_page_urls (pages : String → Option String)
    (listingOf : String → ListingPage) (tid : Int) : List String :=
  let url := VLR_BASE_URL ++ "/event/matches/" ++ toString tid
  match truthyOpt (pages url) with
  | none => []
  | some html =>
    (((listingOf html).hrefs.filter
        (fun h => h ≠ "" && startsNumPath h && !(containsStr h "/event/"))).map
      (fun h => VLR_BASE_URL ++ h)).eraseDups

/-! ## Extractor: stat cells (src/data_fetcher.py) -/

/-- A statistics table cell: the stripped text of its mod-both span when that
span exists, and the stripped text of the whole cell. -/
structure Cell where
  modBoth : Option String
  text : String
deriving DecidableEq

/-- extract_kills_from_cell: int of the mod-both span text, else the leading
digit run of the cell text (regex caret-digits). -/
def extract_kills_from_cell (cell : Cell) : Option Int :=
  let fallback : Option Int :=
    let ds := cell.text.toList.takeWhile Char.isDigit
    if ds.isEmpty then none else some (digitsVal ds : Int)
  match cell.modBoth with
  | some t =>
    match pyInt? t with
    | some n => some n
    | none => fallback
  | none => fallback

/-- re.search of slash, optional whitespace, digit group: scans for the first
slash followed (after whitespace) by at least one digit. -/
def deathsFromText : List Char → Option Int
  | [] => none
  | c :: rest =>
    if c = '/' then
      let ds := (rest.dropWhile pyWs).takeWhile Char.isDigit
      if ds.isEmpty then deathsFromText rest else some (digitsVal ds : Int)
    else deathsFromText rest

/-- extract_deaths_from_cell: int of the mod-both span text, else the first
slash-digits pattern of the cell text. -/
def extract_deaths_from_cell (cell : Cell) : Option Int :=
  match cell.modBoth with
  | some t =>
    match pyInt? t with
    | some n => some n
    | none => deathsFromText cell.text.toList
  | none => deathsFromText cell.text.toList

/-! ## Extractor: dates (src/data_fetcher.py, extract_date_from_match_page)

Python strptime/strftime are modelled for exactly the directives the code
uses: percent B (full month name), A (full weekday name), Y (four-digit
year), m, d, H, M, S (one or two digits).  Whitespace in a format matches a
whitespace run; the whole input must be consumed; missing fields default to
year 1900, month 1, day 1, midnight; the assembled date is validated as the
datetime constructor would. -/

structure DateDiv where
  dataUtcTs : Option String
  text : String
deriving DecidableEq

inductive FmtTok where
  | lit (c : Char)
  | ws
  | percB
  | percA
  | percY
  | percm
  | percd
  | percH
  | percM
  | percS
deriving DecidableEq

structure PyDateTime where
  year : Nat
  month : Nat
  day : Nat
  hour : Nat
  minute : Nat
  second : Nat
deriving DecidableEq

structure RawFields where
  y : Option Nat := none
  mo : Option Nat := none
  d : Option Nat := none
  h : Option Nat := none
  mi : Option Nat := none
  s : Option Nat := none
deriving DecidableEq

def monthNames : List String :=
  ["January", "February", "March", "April", "May", "June",
   "July", "August", "September", "October", "November", "December"]

def weekdayNames : List String :=
  ["Monday", "Tuesday", "Wednesday", "Thursday", "Friday", "Saturday", "Sunday"]

/-- Case-insensitive name alternation match returning the one-based index of
the matched name and the remaining input.  Full month and weekday names are
pairwise prefix-free, so first-match order is immaterial. -/
def matchNameCiAux : List String → Nat → List Char → Option (Nat × List Char)
  | [], _, _ => none
  | n :: ns, i, cs =>
    if ciStarts n.toList cs then some (i, cs.drop n.toList.length)
    else matchNameCiAux ns (i + 1) cs

def matchNameCi (names : List String) (cs : List Char) : Option (Nat × List Char) :=
  matchNameCiAux names 1 cs

/-- Greedy match of one or two digits (the strptime pattern for numeric
two-digit directives). -/
def take2Digits : List Char → Option (Nat × List Char)
  | [] => none
  | c1 :: rest =>
    if c1.isDigit then
      match rest with
      | c2 :: rest2 =>
        if c2.isDigit then some (digitsVal [c1, c2], rest2) else some (digitsVal [c1], rest)
      | [] => some (digitsVal [c1], [])
    else none

/-- Match of exactly four digits (the strptime pattern for percent Y). -/
def take4Digits : List Char → Option (Nat × List Char)
  | a :: b :: c :: d :: rest =>
    if a.isDigit && b.isDigit && c.isDigit && d.isDigit then
      some (digitsVal [a, b, c, d], rest)
    else none
  | _ => none

def matchToks : List FmtTok → List Char → RawFields → Option RawFields
  | [], [], acc => some acc
  | [], _ :: _, _ => none
  | t :: ts, cs, acc =>
    match t with
    | .lit c =>
      match cs with
      | c2 :: rest => if c2 = c then matchToks ts rest acc else none
      | [] => none
    | .ws =>
      match cs with
      | c2 :: rest => if pyWs c2 then matchToks ts (rest.dropWhile pyWs) acc else none
      | [] => none
    | .percB =>
      match matchNameCi monthNames cs with
      | some (i, rest) => matchToks ts rest { acc with mo := some i }
      | none => none
    | .percA =>
      match matchNameCi weekdayNames cs with
      | some (_, rest) => matchToks ts rest acc
      | none => none
    | .percY =>
      match take4Digits cs with
      | some (n, rest) => matchToks ts rest { acc with y := some n }
      | none => none
    | .percm =>
      match take2Digits cs with
      | some (n, rest) => matchToks ts rest { acc with mo := some n }
      | none => none
    | .percd =>
      match take2Digits cs with
      | some (n, rest) => matchToks ts rest { acc with d := some n }
      | none => none
    | .percH =>
      match take2Digits cs with
      | some (n, rest) => matchToks ts rest { acc with h := some n }
      | none => none
    | .percM =>
      match take2Digits cs with
      | some (n, rest) => matchToks ts rest { acc with mi := some n }
      | none => none
    | .percS =>
      match take2Digits cs with
      | some (n, rest) => matchToks ts rest { acc with s := some n }
      | none => none

def isLeapYear (y : Nat) : Bool :=
  y % 4 = 0 && (y % 100 ≠ 0 || y % 400 = 0)

def daysInMonth (y m : Nat) : Nat :=
  if m = 2 then (if isLeapYear y then 29 else 28)
  else if m = 4 || m = 6 || m = 9 || m = 11 then 30
  else 31

/-- Validation the datetime constructor performs on assembled fields. -/
def validDT (dt : PyDateTime) : Bool :=
  1 ≤ dt.year && dt.year ≤ 9999 && 1 ≤ dt.month && dt.month ≤ 12 &&
  1 ≤ dt.day && dt.day ≤ daysInMonth dt.year dt.month &&
  dt.hour ≤ 23 && dt.minute ≤ 59 && dt.second ≤ 59

def strptime (fmt : List FmtTok) (s : String) : Option PyDateTime :=
  match matchToks fmt s.toList {} with
  | none => none
  | some r =>
    let dt : PyDateTime :=
      { year := r.y.getD 1900, month := r.mo.getD 1, day := r.d.getD 1,
        hour := r.h.getD 0, minute := r.mi.getD 0, second := r.s.getD 0 }
    if validDT dt then some dt else none

def fmtUtcTs : List FmtTok :=
  [.percY, .lit '-', .percm, .lit '-', .percd, .ws, .percH, .lit ':', .percM, .lit ':', .percS]

def fmtBdY : List FmtTok := [.percB, .ws, .percd, .lit ',', .ws, .percY]

def fmtABd : List FmtTok := [.percA, .lit ',', .ws, .percB, .ws, .percd]

def fmtBd : List FmtTok := [.percB, .ws, .percd]

def pad2 (n : Nat) : String :=
  if n < 10 then "0" ++ toString n else toString n

/-- strftime of percent Y, month, day with dashes.  glibc does not zero-pad
percent Y; every year reaching this point has four digits anyway. -/
def strftimeYmd (dt : PyDateTime) : String :=
  toString dt.year ++ "-" ++ pad2 dt.month ++ "-" ++ pad2 dt.day

/-- dt.replace with a new year: raises ValueError (none) when the day does
not exist in the target month of the new year. -/
def dtReplaceYear (dt : PyDateTime) (y : Nat) : Option PyDateTime :=
  if 1 ≤ y && y ≤ 9999 && dt.day ≤ daysInMonth y dt.month then some { dt with year := y }
  else none

/-- The for-fmt loop over human-readable date formats: first format that
parses wins; a parsed year of 1900 (the strptime default) is replaced by the
current year; a ValueError from the replacement continues with the next
format. -/
def tryTextFormats (currentYear : Nat) (dateStr : String) :
    List (List FmtTok) → Option String
  | [] => none
  | fmt :: rest =>
    match strptime fmt dateStr with
    | none => tryTextFormats currentYear dateStr rest
    | some dt =>
      if dt.year = 1900 then
        match dtReplaceYear dt currentYear with
        | some dt2 => some (strftimeYmd dt2)
        | none => tryTextFormats currentYear dateStr rest
      else some (strftimeYmd dt)

/-- extract_date_from_match_page.  dateDiv models the moment-tz-convert div
(its data-utc-ts attribute and stripped text); dateSearch models the
soup.find over document strings matching the month-day-year regex.  The
machine-readable timestamp is preferred; then the text formats with
current-year fallback; then the document-wide string search. -/
def extract_date_from_match_page (currentYear : Nat) (dateDiv : Option DateDiv)
    (dateSearch : Option String) : Option String :=
  let fromDiv : Option String :=
    match dateDiv with
    | none => none
    | some dd =>
      let fromTs : Option String :=
        match truthyOpt dd.dataUtcTs with
        | none => none
        | some ts => (strptime fmtUtcTs ts).map strftimeYmd
      match fromTs with
      | some r => some r
      | none => tryTextFormats currentYear dd.text [fmtBdY, fmtABd, fmtBd]
  match fromDiv with
  | some r => some r
  | none =>
    match dateSearch with
    | none => none
    | some s => (strptime fmtBdY (pyStrip s)).map strftimeYmd

/-! ## Extractor: match pages (src/data_fetcher.py, parse_match_page)

BeautifulSoup query results are the structured input: a Row carries the td
count, the bold-styled player div text when present, the raw text of the
player cell, and the kills/deaths cells when their classed td exists; a Table
carries its tbody rows when a tbody exists; a GameSection carries the map div
text when the div exists, the stripped texts of its score divs, and its
stats tables. -/

structure Row where
  numCells : Nat
  playerBold : Option String
  playerCellText : String
  killsCell : Option Cell
  deathsCell : Option Cell
deriving DecidableEq

structure Table where
  tbody : Option (List Row)
deriving DecidableEq

structure GameSection where
  mapDiv : Option String
  scoreTexts : List String
  tables : List Table
deriving DecidableEq

structure Soup where
  dateDiv : Option DateDiv
  dateSearchText : Option String
  tournamentDivText : Option String
  teamLinkNames : List (Option String)
  titleMedTexts : List String
  gameSections : List GameSection
deriving DecidableEq

/-- Length consumed by the map-header score regex (digits, colon, digits,
then dot-star up to a newline) when it matches at the head, else zero. -/
def scoreMatchLen (cs : List Char) : Nat :=
  let d1 := cs.takeWhile Char.isDigit
  if d1.isEmpty then 0
  else
    match cs.drop d1.length with
    | ':' :: r2 =>
      let d2 := r2.takeWhile Char.isDigit
      if d2.isEmpty then 0
      else d1.length + 1 + d2.length + ((r2.drop d2.length).takeWhile (fun c => c != '\n')).length
    | _ => 0

/-- re.sub of the score pattern with the empty string: every match removed,
scanning left to right.  Each step consumes at least one character, so fuel
equal to the input length never runs out. -/
def subScoreFuel : Nat → List Char → List Char
  | 0, cs => cs
  | _, [] => []
  | fuel + 1, c :: rest =>
    let n := scoreMatchLen (c :: rest)
    if n = 0 then c :: subScoreFuel fuel rest
    else subScoreFuel fuel ((c :: rest).drop n)

def subScore (s : String) : String :=
  String.mk (subScoreFuel s.toList.length s.toList)

/-- Length consumed by the whitespace-PICK-dot-star pattern when it matches
at the head, else zero. -/
def pickMatchLen (cs : List Char) : Nat :=
  let ws := cs.takeWhile pyWs
  let r := cs.drop ws.length
  if List.isPrefixOf "PICK".toList r then
    ws.length + 4 + ((r.drop 4).takeWhile (fun c => c != '\n')).length
  else 0

def subPickFuel : Nat → List Char → List Char
  | 0, cs => cs
  | _, [] => []
  | fuel + 1, c :: rest =>
    let n := pickMatchLen (c :: rest)
    if n = 0 then c :: subPickFuel fuel rest
    else subPickFuel fuel ((c :: rest).drop n)

def subPick (s : String) : String :=
  String.mk (subPickFuel s.toList.length s.toList)

/-- Map name cleanup: remove embedded score and duration, strip, remove the
PICK annotation, strip. -/
def computeMapName (mapText : String) : String :=
  pyStrip (subPick (pyStrip (subScore mapText)))

/-- Winner determination from the parsed team scores. -/
def winningTeamIdx (scores : List Int) : Option Nat :=
  match scores with
  | s0 :: s1 :: _ => if s0 > s1 then some 0 else if s1 > s0 then some 1 else none
  | _ => none

/-- Per-table result string relative to the determined winner. -/
def resultForTable (winIdx : Option Nat) (teamIdx : Nat) : String :=
  match winIdx with
  | some w => if teamIdx = w then "Win" else "Loss"
  | none => "Tie"

/-- Team name for the table at the given index, with the generated
placeholder when the header produced too few names. -/
def teamNameFor (teamNames : List String) (i : Nat) : String :=
  match teamNames.get? i with
  | some n => n
  | none => "Team " ++ toString (i + 1)

/-- Player-name resolution: the bold player div text when present, else the
whole cell text with whitespace runs collapsed and stripped. -/
def resolvePlayerName (row : Row) : String :=
  match row.playerBold with
  | some t => t
  | none => pyStrip (wsToSpace row.playerCellText)

/-- Record description: tournament dash team1 vs team2 when both team names
are known, else the bare tournament name. -/
def descriptionFor (teamNames : List String) (tournamentName : String) : String :=
  if teamNames.length ≥ 2 then
    tournamentName ++ " - " ++ teamNames.getD 0 "" ++ " vs " ++ teamNames.getD 1 ""
  else tournamentName

/-- The body of the per-row loop of parse_match_page: rows with fewer than
four cells, an empty or purely numeric player name, a missing kills or
deaths cell, or an unparseable kills or deaths value produce no record. -/
def parseRow (teamNames : List String) (tournamentName mapName teamName result : String)
    (matchDate matchId : Option String) (row : Row) : Option MatchRecord :=
  if row.numCells < 4 then none
  else
    let playerName := resolvePlayerName row
    if playerName == "" || pyIsDigit playerName then none
    else
      match row.killsCell with
      | none => none
      | some kc =>
        match extract_kills_from_cell kc with
        | none => none
        | some kills =>
          match row.deathsCell with
          | none => none
          | some dc =>
            match extract_deaths_from_cell dc with
            | none => none
            | some deaths =>
              some { description := descriptionFor teamNames tournamentName,
                     map := mapName, player := playerName,
                     kills := kills, deaths := deaths,
                     matchDate := matchDate, result := some result,
                     team := some teamName, tournamentId := none, matchId := matchId }

/-- Records of one per-team statistics table (team index i): nothing without
a tbody, else the surviving rows in order. -/
def tableRecords (teamNames : List String) (tournamentName mapName : String)
    (winIdx : Option Nat) (matchDate matchId : Option String) (i : Nat) (t : Table) :
    List MatchRecord :=
  match t.tbody with
  | none => []
  | some rows =>
    rows.filterMap (parseRow teamNames tournamentName mapName (teamNameFor teamNames i)
      (resultForTable winIdx i) matchDate matchId)

/-- The per-map-section body of parse_match_page: skip without a map div or
with an empty cleaned map name; otherwise parse scores, determine the winner
and emit each enumerated table. -/
def parseSection (teamNames : List String) (tournamentName : String)
    (matchDate matchId : Option String) (g : GameSection) : List MatchRecord :=
  match g.mapDiv with
  | none => []
  | some mapText =>
    let mapName := computeMapName mapText
    if mapName = "" then []
    else
      let winIdx := winningTeamIdx (g.scoreTexts.filterMap pyInt?)
      (g.tables.enum).flatMap fun p =>
        tableRecords teamNames tournamentName mapName winIdx matchDate matchId p.1 p.2

/-- Team names: header link texts; when fewer than two, extend with up to two
secondary header titles that are nonempty and not purely numeric. -/
def teamNamesOf (soup : Soup) : List String :=
  let base := soup.teamLinkNames.filterMap id
  if base.length < 2 then
    base ++ (soup.titleMedTexts.take 2).filter (fun t => t ≠ "" && !(pyIsDigit t))
  else base

/-- Tournament name: first line of the header event div text, stripped. -/
def tournamentNameOf (soup : Soup) : String :=
  match soup.tournamentDivText with
  | some t => pyStrip (String.mk (t.toList.takeWhile (fun c => c != '\n')))
  | none => ""

/-- parse_match_page: match id from the URL, tournament name and date from
the headers, then all per-map sections. -/
def parse_match_page (currentYear : Nat) (soup : Soup) (matchUrl : String) :
    List MatchRecord × String × Option String :=
  let matchId := findIdInUrl matchUrl.toList
  let tournamentName := tournamentNameOf soup
  let matchDate := extract_date_from_match_page currentYear soup.dateDiv soup.dateSearchText
  let teamNames := teamNamesOf soup
  let records := soup.gameSections.flatMap (parseSection teamNames tournamentName matchDate matchId)
  (records, tournamentName, matchDate)

/-! ## Orchestrator (src/data_fetcher.py fetch_tournament_data,
src/run_scraper.py run_scraper) -/

/-- The per-record tagging of fetch_tournament_data. -/
def tagTournament (tid : Int) (m : MatchRecord) : MatchRecord :=
  { m with tournamentId := some tid }

/-- One iteration of the per-URL loop of fetch_tournament_data: skip a falsy
fetch result; parse; when the page yields records, tag each with the
tournament id and extend the accumulator.  pages models fetch_page applied to
a URL (None after exhausted retries); soupOf models BeautifulSoup. -/
def fetchTournamentStep (currentYear : Nat) (pages : String → Option String)
    (soupOf : String → Soup) (tid : Int) (acc : List MatchRecord) (url : String) :
    List MatchRecord :=
  match truthyOpt (pages url) with
  | none => acc
  | some html =>
    let parsed := (parse_match_page currentYear (soupOf html) url).1
    if parsed.isEmpty then acc
    else acc ++ parsed.map (tagTournament tid)

/-- fetch_tournament_data (the tournament-name bookkeeping of the Python
function is not part of its return value and is omitted; the courtesy sleep
has no observable effect on the result). -/
def fetch_tournament_data (currentYear : Nat) (pages : String → Option String)
    (listingOf : String → ListingPage) (soupOf : String → Soup) (tid : Int) :
    List MatchRecord :=
  (get_match_page_urls pages listingOf tid).foldl
    (fetchTournamentStep currentYear pages soupOf tid) []

/-- init_db only creates the schema and indexes; on the row level the store
is unchanged. -/
def init_db (db : DB) : DB := db

/-- The fetch phase of run_scraper: per-tournament fetches when a nonempty
tournament list is given (Python truthiness: None and the empty list both
fall to the fetch-all branch), else the all-tier1 fetch. -/
def collectMatches (fetchT : Int → List MatchRecord) (fetchAll : List MatchRecord) :
    Option (List Int) → List MatchRecord
  | some (t :: ts) => (t :: ts).flatMap fetchT
  | _ => fetchAll

/-- run_scraper: init, fetch, then either return directly (dry run) or
ingest through add_matches_batch.  Returns the record list the Python
function returns together with the resulting store.  The stats and
kill/death-balance queries are read-only and have no effect on either
component. -/
def run_scraper (fetchT : Int → List MatchRecord) (fetchAll : List MatchRecord)
    (tournamentIds : Option (List Int)) (dryRun : Bool) (db : DB) :
    List MatchRecord × DB :=
  let db0 := init_db db
  let allMatches := collectMatches fetchT fetchAll tournamentIds
  if dryRun then (allMatches, db0)
  else
    let res := add_matches_batch db0 allMatches
    (allMatches, res.1)

/-! ## Concrete fixtures used by witnesses and counterexamples -/

/-- A record carrying a match id. -/
def cexWithId : MatchRecord :=
  { description := "D", map := "M", player := "P", kills := 1, deaths := 2,
    matchId := some "1" }

/-- A record without a match id whose description key collides with the
stored row of cexWithId under the fallback lookup. -/
def cexNoId : MatchRecord :=
  { description := "D", map := "M", player := "P", kills := 2, deaths := 1 }

def wBatchA : MatchRecord :=
  { description := "DA", map := "M", player := "P", kills := 3, deaths := 4,
    matchId := some "10" }

def wBatchB : MatchRecord :=
  { description := "DB", map := "M", player := "P", kills := 4, deaths := 3,
    matchId := some "11" }

def wMidA : MatchRecord :=
  { description := "D1", map := "M", player := "P", kills := 1, deaths := 1,
    matchId := some "5" }

def wMidB : MatchRecord :=
  { description := "D2", map := "M", player := "P", kills := 2, deaths := 2,
    matchId := some "5" }

def wDescA : MatchRecord :=
  { description := "E", map := "M", player := "Q", kills := 1, deaths := 1 }

def wDescB : MatchRecord :=
  { description := "E", map := "M", player := "Q", kills := 5, deaths := 5 }

def wRow : Row :=
  { numCells := 4, playerBold := some "alice", playerCellText := "",
    killsCell := some { modBoth := some "7", text := "7" },
    deathsCell := some { modBoth := some "3", text := "3" } }

def wRowB : Row :=
  { numCells := 4, playerBold := some "bob", playerCellText := "",
    killsCell := some { modBoth := some "3", text := "3" },
    deathsCell := some { modBoth := some "7", text := "7" } }

/-- A row with a resolvable player but no kills cell. -/
def wBadRow : Row :=
  { numCells := 4, playerBold := some "carol", playerCellText := "",
    killsCell := none, deathsCell := none }

def wT0 : Table := { tbody := some [wRow] }

def wT1 : Table := { tbody := some [wRowB] }

def wG13 : GameSection :=
  { mapDiv := some "Ascent", scoreTexts := ["13", "7"], tables := [wT0, wT1] }

def wGTie : GameSection :=
  { mapDiv := some "Ascent", scoreTexts := ["10", "10"], tables := [wT0] }

def wGNoScores : GameSection :=
  { mapDiv := some "Ascent", scoreTexts := [], tables := [wT0] }

def wSoup : Soup :=
  { dateDiv := none, dateSearchText := none, tournamentDivText := some "Cup",
    teamLinkNames := [some "T1", some "T2"], titleMedTexts := [],
    gameSections := [{ mapDiv := some "Ascent", scoreTexts := ["13", "7"],
                       tables := [wT0] }] }

def wPages : String → Option String := fun u =>
  if u = "https://www.vlr.gg/event/matches/5" then some "LISTING"
  else if u = "https://www.vlr.gg/1/x" then some "MATCHHTML" else none

def wListing : String → ListingPage := fun _ => { hrefs := ["/1/x"] }

def wSoupOf : String → Soup := fun _ => wSoup

/-- The record fetch_tournament_data produces from the fixtures above. -/
def wRec : MatchRecord :=
  { description := "Cup - T1 vs T2", map := "Ascent", player := "alice",
    kills := 7, deaths := 3, matchDate := none, result := some "Win",
    team := some "T1", tournamentId := some 5, matchId := some "1" }

/-- The Win record of the first table of wG13. -/
def wRecWin : MatchRecord :=
  { description := "Cup - T1 vs T2", map := "Ascent", player := "alice",
    kills := 7, deaths := 3, matchDate := none, result := some "Win",
    team := some "T1", tournamentId := none, matchId := none }

/-- The Loss record of the second table of wG13. -/
def wRecLoss : MatchRecord :=
  { description := "Cup - T1 vs T2", map := "Ascent", player := "bob",
    kills := 3, deaths := 7, matchDate := none, result := some "Loss",
    team := some "T2", tournamentId := none, matchId := none }

/-- The Tie record of wGTie and wGNoScores. -/
def wRecTie : MatchRecord :=
  { description := "Cup - T1 vs T2", map := "Ascent", player := "alice",
    kills := 7, deaths := 3, matchDate := none, result := some "Tie",
    team := some "T1", tournamentId := none, matchId := none }

/-! ## Lemmas on the dedup lookup -/

theorem truthyOpt_eq_some {o : Option String} {s : String} :
    truthyOpt o = some s ↔ o = some s ∧ s ≠ "" := by
  cases o with
  | none => simp [truthyOpt]
  | some t =>
    simp only [truthyOpt]
    split
    · next h =>
      subst h
      constructor
      · intro hcon
        exact Option.noConfusion hcon
      · rintro ⟨he, h2⟩
        exact absurd (Option.some.inj he).symm h2
    · next h =>
      constructor
      · intro he
        exact ⟨he, fun hs => h ((Option.some.inj he).trans hs)⟩
      · exact fun hp => hp.1

theorem lookupHit_nil (m : MatchRecord) : lookupHit [] m = false := by
  cases h : truthyOpt m.matchId <;> simp [lookupHit, h]

theorem lookupHit_append (d1 d2 : DB) (m : MatchRecord) :
    lookupHit (d1 ++ d2) m = (lookupHit d1 m || lookupHit d2 m) := by
  cases h : truthyOpt m.matchId <;> simp [lookupHit, h, List.any_append]

/-- A stored record with the same natural key is always found by the
lookup. -/
theorem hit_of_keyEq {db : DB} {r m : MatchRecord} (hr : r ∈ db)
    (hk : natKey r = natKey m) : lookupHit db m = true := by
  cases hm : truthyOpt m.matchId with
  | some mid =>
    cases hr2 : truthyOpt r.matchId with
    | some mid2 =>
      simp only [natKey, hm, hr2] at hk
      obtain ⟨h1, h2, h3⟩ : mid2 = mid ∧ r.map = m.map ∧ r.player = m.player := by
        simpa using hk
      have hrm : r.matchId = some mid := by
        rw [(truthyOpt_eq_some.mp hr2).1, h1]
      simp only [lookupHit, hm]
      exact List.any_eq_true.mpr ⟨r, hr, by simp [rowHitMid, hrm, h2, h3]⟩
    | none =>
      simp only [natKey, hm, hr2] at hk
      simp at hk
  | none =>
    cases hr2 : truthyOpt r.matchId with
    | some mid2 =>
      simp only [natKey, hm, hr2] at hk
      simp at hk
    | none =>
      simp only [natKey, hm, hr2] at hk
      obtain ⟨h1, h2, h3⟩ :
          r.description = m.description ∧ r.map = m.map ∧ r.player = m.player := by
        simpa using hk
      simp only [lookupHit, hm]
      exact List.any_eq_true.mpr ⟨r, hr, by simp [rowHitDesc, h1, h2, h3]⟩

/-- Against a single stored record of a different natural key the lookup
misses unless the pair is a cross-branch collision. -/
theorem noHit_single {a b : MatchRecord} (hk : natKey a ≠ natKey b)
    (hc : ¬ crossPair a b) : lookupHit [a] b = false := by
  cases hb : truthyOpt b.matchId with
  | some mid =>
    simp only [lookupHit, hb, List.any_cons, List.any_nil, Bool.or_false]
    rw [Bool.eq_false_iff]
    intro hhit
    simp only [rowHitMid, Bool.and_eq_true, beq_iff_eq] at hhit
    obtain ⟨⟨h1, h2⟩, h3⟩ := hhit
    have hmid : mid ≠ "" := (truthyOpt_eq_some.mp hb).2
    have ha : truthyOpt a.matchId = some mid := truthyOpt_eq_some.mpr ⟨h1, hmid⟩
    exact hk (by simp [natKey, ha, hb, h2, h3])
  | none =>
    simp only [lookupHit, hb, List.any_cons, List.any_nil, Bool.or_false]
    rw [Bool.eq_false_iff]
    intro hhit
    simp only [rowHitDesc, Bool.and_eq_true, beq_iff_eq] at hhit
    obtain ⟨⟨h1, h2⟩, h3⟩ := hhit
    cases ha : truthyOpt a.matchId with
    | none => exact hk (by simp [natKey, ha, hb, h1, h2, h3])
    | some mid2 => exact hc ⟨hb, by simp [ha], h1, h2, h3⟩

/-- When no incoming record is found in the starting store and no earlier
batch record is found by a later one, every record is inserted. -/
theorem foldl_all_insert :
    ∀ (ms : List MatchRecord) (db : DB) (ins skip : Nat),
    (∀ m ∈ ms, lookupHit db m = false) →
    ms.Pairwise (fun a b => lookupHit [a] b = false) →
    ms.foldl batchStep (db, ins, skip) = (db ++ ms, ins + ms.length, skip) := by
  intro ms
  induction ms with
  | nil => intro db ins skip _ _; simp
  | cons m rest ih =>
    intro db ins skip h1 h2
    have hm : lookupHit db m = false := h1 m (List.mem_cons_self m rest)
    rw [List.pairwise_cons] at h2
    rw [List.foldl_cons]
    have hstep : batchStep (db, ins, skip) m = (db ++ [m], ins + 1, skip) := by
      simp [batchStep, hm]
    rw [hstep, ih (db ++ [m]) (ins + 1) skip ?_ h2.2]
    · rw [List.append_assoc, List.singleton_append, List.length_cons,
        Nat.add_assoc, Nat.add_comm 1 rest.length]
    · intro m2 hm2
      rw [lookupHit_append, Bool.or_eq_false_iff]
      exact ⟨h1 m2 (List.mem_cons_of_mem m hm2), h2.1 m2 hm2⟩

/-- When every incoming record is found in the store, everything is
skipped and the store is unchanged. -/
theorem foldl_all_skip :
    ∀ (ms : List MatchRecord) (db : DB) (ins skip : Nat),
    (∀ m ∈ ms, lookupHit db m = true) →
    ms.foldl batchStep (db, ins, skip) = (db, ins, skip + ms.length) := by
  intro ms
  induction ms with
  | nil => intro db ins skip _; simp
  | cons m rest ih =>
    intro db ins skip h1
    have hm : lookupHit db m = true := h1 m (List.mem_cons_self m rest)
    rw [List.foldl_cons]
    have hstep : batchStep (db, ins, skip) m = (db, ins, skip + 1) := by
      simp [batchStep, hm]
    rw [hstep, ih db ins (skip + 1) (fun m2 hm2 => h1 m2 (List.mem_cons_of_mem m hm2)),
      List.length_cons, Nat.add_assoc, Nat.add_comm 1 rest.length]

/-- One batch iteration preserves pairwise-distinct natural keys. -/
theorem keyDistinct_batchStep (st : DB × Nat × Nat) (m : MatchRecord)
    (h : keyDistinct st.1) : keyDistinct (batchStep st m).1 := by
  unfold batchStep
  split
  · exact h
  · next hmiss =>
    rw [keyDistinct, List.pairwise_append]
    refine ⟨h, List.pairwise_singleton _ m, ?_⟩
    intro r hr b hb hkeq
    rw [List.mem_singleton] at hb
    subst hb
    rw [hit_of_keyEq hr hkeq] at hmiss
    exact hmiss rfl

theorem keyDistinct_foldl :
    ∀ (ms : List MatchRecord) (st : DB × Nat × Nat),
    keyDistinct st.1 → keyDistinct ((ms.foldl batchStep st)).1 := by
  intro ms
  induction ms with
  | nil => intro st h; simpa
  | cons m rest ih =>
    intro st h
    rw [List.foldl_cons]
    exact ih _ (keyDistinct_batchStep st m h)

/-! ## Claims on the ingestion layer -/

/-- C1 counterexample: two records with pairwise-distinct natural keys (one
keyed by match id, one by the description fallback) against an empty store.
The claim predicts inserted 2, skipped 0 on the first call; the code inserts
the first record and then skips the second, because the description lookup
of the keyless record also matches the stored row that carries a match id.
Result: inserted 1, skipped 1. -/
theorem c1_add_batch_idempotence_counterexample :
    natKey cexWithId ≠ natKey cexNoId ∧
    (add_matches_batch [] [cexWithId, cexNoId]).2 = (1, 1) ∧
    (add_matches_batch [] [cexWithId, cexNoId]).2 ≠ (2, 0) := by
  decide

/-- C1 amended: for a batch of N records with pairwise-distinct natural keys
and no cross-branch collision between a record lacking match_id and a record
carrying one, run against a store in which no batch record is found by its
dedup lookup, add_matches_batch returns (N, 0) on the first call and (0, N)
on the second. -/
theorem c1_add_batch_idempotence_amended (db0 : DB) (ms : List MatchRecord)
    (h0 : ∀ m ∈ ms, lookupHit db0 m = false)
    (hd : ms.Pairwise (fun a b => natKey a ≠ natKey b))
    (hx : ∀ a ∈ ms, ∀ b ∈ ms, ¬ crossPair a b) :
    (add_matches_batch db0 ms).2 = (ms.length, 0) ∧
    (add_matches_batch (add_matches_batch db0 ms).1 ms).2 = (0, ms.length) := by
  have hpair : ms.Pairwise (fun a b => lookupHit [a] b = false) :=
    List.Pairwise.imp_of_mem (fun ha hb hk => noHit_single hk (hx _ ha _ hb)) hd
  have h1 := foldl_all_insert ms db0 0 0 h0 hpair
  constructor
  · rw [add_matches_batch, h1]
    simp
  · have hdb1 : (add_matches_batch db0 ms).1 = db0 ++ ms := by
      rw [add_matches_batch, h1]
    rw [hdb1]
    have hall : ∀ m ∈ ms, lookupHit (db0 ++ ms) m = true := by
      intro m hm
      rw [lookupHit_append, hit_of_keyEq hm rfl, Bool.or_true]
    rw [add_matches_batch, foldl_all_skip ms (db0 ++ ms) 0 0 hall]
    simp

/-- C1 amended witness: a concrete two-record batch, both records keyed by
distinct match ids, against the empty store. -/
theorem c1_add_batch_idempotence_amended_witness :
    (add_matches_batch [] [wBatchA, wBatchB]).2 = (2, 0) ∧
    (add_matches_batch (add_matches_batch [] [wBatchA, wBatchB]).1
      [wBatchA, wBatchB]).2 = (0, 2) :=
  c1_add_batch_idempotence_amended [] [wBatchA, wBatchB]
    (by decide) (by decide) (by decide)

/-- C2: two records sharing a truthy match_id, map and player but differing
in description are deduplicated (second skipped); two records both lacking a
truthy match_id but sharing description, map and player are likewise
deduplicated.  The match-id key takes precedence over the description
fallback key. -/
theorem c2_dedup_key_precedence (r1 r2 r3 r4 : MatchRecord) :
    ((∃ mid, mid ≠ "" ∧ r1.matchId = some mid ∧ r2.matchId = some mid) →
        r1.map = r2.map → r1.player = r2.player → r1.description ≠ r2.description →
        (add_matches_batch [] [r1, r2]).2 = (1, 1)) ∧
    (truthyOpt r3.matchId = none → truthyOpt r4.matchId = none →
        r3.description = r4.description → r3.map = r4.map → r3.player = r4.player →
        (add_matches_batch [] [r3, r4]).2 = (1, 1)) := by
  constructor
  · rintro ⟨mid, hmid, h1, h2⟩ hmap hpl _
    have e1 : lookupHit [] r1 = false := lookupHit_nil r1
    have ht2 : truthyOpt r2.matchId = some mid := truthyOpt_eq_some.mpr ⟨h2, hmid⟩
    have e2 : lookupHit [r1] r2 = true := by
      simp [lookupHit, ht2, rowHitMid, h1, hmap, hpl]
    simp [add_matches_batch, batchStep, e1, e2]
  · intro ht3 ht4 hdesc hmap hpl
    have e1 : lookupHit [] r3 = false := lookupHit_nil r3
    have e2 : lookupHit [r3] r4 = true := by
      simp [lookupHit, ht4, rowHitDesc, hdesc, hmap, hpl]
    simp [add_matches_batch, batchStep, e1, e2]

/-- C2 witness: one concrete pair per branch. -/
theorem c2_dedup_key_precedence_witness :
    (add_matches_batch [] [wMidA, wMidB]).2 = (1, 1) ∧
    (add_matches_batch [] [wDescA, wDescB]).2 = (1, 1) :=
  ⟨(c2_dedup_key_precedence wMidA wMidB wDescA wDescB).1
      ⟨"5", by decide, rfl, rfl⟩ rfl rfl (by decide),
   (c2_dedup_key_precedence wMidA wMidB wDescA wDescB).2 rfl rfl rfl rfl rfl⟩

/-- C9: with a falsy match_id (None or empty), match_exists raises NameError
from the undefined name in its fallback branch instead of returning a
Boolean; with a truthy match_id it returns the Boolean result of the
match-id lookup. -/
theorem c9_match_exists_name_error (db : DB) (matchId : Option String)
    (mapName player : String) :
    (truthyOpt matchId = none →
        match_exists db matchId mapName player = Except.error nameErrorMsg) ∧
    (∀ mid, truthyOpt matchId = some mid →
        match_exists db matchId mapName player =
          Except.ok (db.any (rowHitMid mid mapName player))) := by
  constructor
  · intro h
    simp [match_exists, h]
  · intro mid h
    simp [match_exists, h]

/-- C9 witness: the None call errors, a truthy call returns a Boolean. -/
theorem c9_match_exists_name_error_witness :
    match_exists [] none "Ascent" "alice" = Except.error nameErrorMsg ∧
    match_exists [] (some "7") "Ascent" "alice" = Except.ok false :=
  ⟨(c9_match_exists_name_error [] none "Ascent" "alice").1 rfl,
   (c9_match_exists_name_error [] (some "7") "Ascent" "alice").2 "7" (by decide)⟩

/-- C10: a record whose natural key matches a record already in the current
store (in particular one inserted earlier in the same batch) is skipped
without touching the store, and consequently add_matches_batch preserves
pairwise distinctness of natural keys. -/
theorem c10_batch_key_uniqueness (db : DB) (ms : List MatchRecord)
    (h : keyDistinct db) :
    (∀ (db2 : DB) (ins skip : Nat) (m : MatchRecord),
        (∃ r ∈ db2, natKey r = natKey m) →
        batchStep (db2, ins, skip) m = (db2, ins, skip + 1)) ∧
    keyDistinct (add_matches_batch db ms).1 := by
  constructor
  · rintro db2 ins skip m ⟨r, hr, hk⟩
    simp [batchStep, hit_of_keyEq hr hk]
  · exact keyDistinct_foldl ms (db, 0, 0) h

/-- C10 witness: a same-key record is skipped against a singleton store, and
a duplicate-laden batch leaves the store with distinct keys. -/
theorem c10_batch_key_uniqueness_witness :
    batchStep ([cexWithId], 0, 0) cexWithId = ([cexWithId], 0, 1) ∧
    keyDistinct (add_matches_batch [cexWithId] [cexNoId, cexNoId]).1 :=
  ⟨(c10_batch_key_uniqueness [cexWithId] [cexNoId, cexNoId] (by decide)).1
      [cexWithId] 0 0 cexWithId ⟨cexWithId, by decide, rfl⟩,
   (c10_batch_key_uniqueness [cexWithId] [cexNoId, cexNoId] (by decide)).2⟩

/-! ## Lemmas on the extractor -/

/-- A produced row record carries the result string of its table, and every
gate of the row loop was passed. -/
theorem parseRow_some {tns : List String} {tn mn tm res : String}
    {md mid : Option String} {row : Row} {r : MatchRecord}
    (h : parseRow tns tn mn tm res md mid row = some r) :
    r.result = some res ∧
    (resolvePlayerName row == "" || pyIsDigit (resolvePlayerName row)) = false ∧
    (∃ kc k, row.killsCell = some kc ∧ extract_kills_from_cell kc = some k) ∧
    (∃ dc d, row.deathsCell = some dc ∧ extract_deaths_from_cell dc = some d) := by
  unfold parseRow at h
  by_cases h4 : row.numCells < 4
  · rw [if_pos h4] at h
    exact Option.noConfusion h
  · simp only [if_neg h4] at h
    by_cases hpl : (resolvePlayerName row == "" || pyIsDigit (resolvePlayerName row)) = true
    · rw [if_pos hpl] at h
      exact Option.noConfusion h
    · rw [if_neg hpl] at h
      cases hkc : row.killsCell with
      | none =>
        simp only [hkc] at h
        exact Option.noConfusion h
      | some kc =>
        simp only [hkc] at h
        cases hke : extract_kills_from_cell kc with
        | none =>
          simp only [hke] at h
          exact Option.noConfusion h
        | some k =>
          simp only [hke] at h
          cases hdc : row.deathsCell with
          | none =>
            simp only [hdc] at h
            exact Option.noConfusion h
          | some dc =>
            simp only [hdc] at h
            cases hde : extract_deaths_from_cell dc with
            | none =>
              simp only [hde] at h
              exact Option.noConfusion h
            | some d =>
              simp only [hde] at h
              refine ⟨?_, by simpa using hpl, ⟨kc, k, rfl, hke⟩, ⟨dc, d, rfl, hde⟩⟩
              rw [← Option.some.inj h]

theorem parseRow_result {tns : List String} {tn mn tm res : String}
    {md mid : Option String} {row : Row} {r : MatchRecord}
    (h : parseRow tns tn mn tm res md mid row = some r) : r.result = some res :=
  (parseRow_some h).1

/-- Every record of one table carries the result string of that table. -/
theorem tableRecords_result {tns : List String} {tn mn : String} {w : Option Nat}
    {md mid : Option String} {i : Nat} {t : Table} {r : MatchRecord}
    (h : r ∈ tableRecords tns tn mn w md mid i t) :
    r.result = some (resultForTable w i) := by
  unfold tableRecords at h
  split at h
  · simp at h
  · obtain ⟨row, _, heq⟩ := List.mem_filterMap.mp h
    exact parseRow_result heq

/-- Every record of a section carries the result string of some table index
relative to the section winner. -/
theorem parseSection_result {tns : List String} {tn : String}
    {md mid : Option String} {g : GameSection} {r : MatchRecord}
    (h : r ∈ parseSection tns tn md mid g) :
    ∃ i, r.result =
      some (resultForTable (winningTeamIdx (g.scoreTexts.filterMap pyInt?)) i) := by
  unfold parseSection at h
  cases hmd : g.mapDiv with
  | none =>
    simp only [hmd] at h
    simp at h
  | some mapText =>
    simp only [hmd] at h
    by_cases hmn : computeMapName mapText = ""
    · rw [if_pos hmn] at h
      simp at h
    · rw [if_neg hmn] at h
      rw [List.mem_flatMap] at h
      obtain ⟨p, _, hr⟩ := h
      exact ⟨p.1, tableRecords_result hr⟩

/-! ## Claims on transport and extractor -/

/-- C3: against a URL whose fetch always fails, fetch_page with 3 retries
performs exactly 3 attempts, sleeping 2 to the power of the attempt index
(1 second, then 2 seconds) between consecutive attempts, and returns None
instead of raising. -/
theorem c3_retry_then_give_up (oracle : Nat → Option String)
    (h : ∀ n, oracle n = none) :
    fetch_page oracle 3 = ⟨none, 3, [1, 2]⟩ := by
  have r3 : List.range 3 = [0, 1, 2] := by decide
  rw [fetch_page, r3]
  simp [fetchAux, h]

/-- C3 witness: the always-failing oracle. -/
theorem c3_retry_then_give_up_witness :
    fetch_page (fun _ => none) 3 = ⟨none, 3, [1, 2]⟩ :=
  c3_retry_then_give_up (fun _ => none) (fun _ => rfl)

/-- C4: in a section whose parsed team scores are 13 and 7, every record of
the first table carries Win and every record of the second carries Loss; with
scores 10 and 10, or with fewer than two parsed scores, every record of the
section carries Tie. -/
theorem c4_winner_determination (tns : List String) (tn mn : String)
    (md mid : Option String) (g : GameSection) (t0 t1 : Table) :
    (g.scoreTexts.filterMap pyInt? = [13, 7] → g.tables = [t0, t1] →
      (∀ r ∈ tableRecords tns tn mn
          (winningTeamIdx (g.scoreTexts.filterMap pyInt?)) md mid 0 t0,
        r.result = some "Win") ∧
      (∀ r ∈ tableRecords tns tn mn
          (winningTeamIdx (g.scoreTexts.filterMap pyInt?)) md mid 1 t1,
        r.result = some "Loss")) ∧
    (g.scoreTexts.filterMap pyInt? = [10, 10] →
      ∀ r ∈ parseSection tns tn md mid g, r.result = some "Tie") ∧
    ((g.scoreTexts.filterMap pyInt?).length < 2 →
      ∀ r ∈ parseSection tns tn md mid g, r.result = some "Tie") := by
  refine ⟨fun hs _ => ⟨?_, ?_⟩, fun hs r hr => ?_, fun hlen r hr => ?_⟩
  · intro r hr
    have hres := tableRecords_result hr
    rw [hs] at hres
    simpa [winningTeamIdx, resultForTable] using hres
  · intro r hr
    have hres := tableRecords_result hr
    rw [hs] at hres
    simpa [winningTeamIdx, resultForTable] using hres
  · obtain ⟨i, hres⟩ := parseSection_result hr
    rw [hs] at hres
    simpa [winningTeamIdx, resultForTable] using hres
  · obtain ⟨i, hres⟩ := parseSection_result hr
    have hw : winningTeamIdx (g.scoreTexts.filterMap pyInt?) = none := by
      cases hsc : g.scoreTexts.filterMap pyInt? with
      | nil => simp [winningTeamIdx]
      | cons a tl =>
        cases tl with
        | nil => simp [winningTeamIdx]
        | cons b tl2 =>
          rw [hsc] at hlen
          simp at hlen
          omega
    rw [hw] at hres
    simpa [resultForTable] using hres

/-- C4 witness: the concrete 13-7, 10-10 and no-scores sections. -/
theorem c4_winner_determination_witness :
    wRecWin.result = some "Win" ∧ wRecLoss.result = some "Loss" ∧
    wRecTie.result = some "Tie" ∧ wRecTie.result = some "Tie" :=
  ⟨((c4_winner_determination ["T1", "T2"] "Cup" "Ascent" none none wG13 wT0 wT1).1
      (by decide) rfl).1 wRecWin (by decide),
   ((c4_winner_determination ["T1", "T2"] "Cup" "Ascent" none none wG13 wT0 wT1).1
      (by decide) rfl).2 wRecLoss (by decide),
   (c4_winner_determination ["T1", "T2"] "Cup" "Ascent" none none wGTie wT0 wT1).2.1
      (by decide) wRecTie (by decide),
   (c4_winner_determination ["T1", "T2"] "Cup" "Ascent" none none wGNoScores wT0 wT1).2.2
      (by decide) wRecTie (by decide)⟩

/-- C5: a row lacking a resolvable player name (empty or purely numeric), a
kills cell with a parseable value, or a deaths cell with a parseable value
yields no record, and removing it from a row list leaves the records of the
sibling rows unchanged. -/
theorem c5_malformed_row_skip (tns : List String) (tn mn tm res : String)
    (md mid : Option String) (row : Row) (rs1 rs2 : List Row)
    (h : resolvePlayerName row = "" ∨ pyIsDigit (resolvePlayerName row) = true ∨
         row.killsCell = none ∨
         (∃ kc, row.killsCell = some kc ∧ extract_kills_from_cell kc = none) ∨
         row.deathsCell = none ∨
         (∃ dc, row.deathsCell = some dc ∧ extract_deaths_from_cell dc = none)) :
    parseRow tns tn mn tm res md mid row = none ∧
    (rs1 ++ row :: rs2).filterMap (parseRow tns tn mn tm res md mid) =
      rs1.filterMap (parseRow tns tn mn tm res md mid) ++
      rs2.filterMap (parseRow tns tn mn tm res md mid) := by
  have hnone : parseRow tns tn mn tm res md mid row = none := by
    cases hpr : parseRow tns tn mn tm res md mid row with
    | none => rfl
    | some r =>
      obtain ⟨_, hplayer, ⟨kc, k, hkc, hke⟩, ⟨dc, d, hdc, hde⟩⟩ := parseRow_some hpr
      rcases h with hp | hp | hp | ⟨kc2, hkc2, hke2⟩ | hp | ⟨dc2, hdc2, hde2⟩
      · rw [hp] at hplayer
        simp at hplayer
      · rw [Bool.or_eq_false_iff] at hplayer
        rw [hp] at hplayer
        simp at hplayer
      · rw [hp] at hkc
        exact Option.noConfusion hkc
      · rw [hkc2] at hkc
        rw [Option.some.inj hkc] at hke2
        rw [hke2] at hke
        exact Option.noConfusion hke
      · rw [hp] at hdc
        exact Option.noConfusion hdc
      · rw [hdc2] at hdc
        rw [Option.some.inj hdc] at hde2
        rw [hde2] at hde
        exact Option.noConfusion hde
  exact ⟨hnone, by rw [List.filterMap_append, List.filterMap_cons, hnone]⟩

/-- C5 witness: a row with no kills cell between two well-formed rows. -/
theorem c5_malformed_row_skip_witness :
    parseRow ["T1", "T2"] "Cup" "Ascent" "T1" "Win" none none wBadRow = none ∧
    ([wRow] ++ wBadRow :: [wRowB]).filterMap
        (parseRow ["T1", "T2"] "Cup" "Ascent" "T1" "Win" none none) =
      [wRow].filterMap (parseRow ["T1", "T2"] "Cup" "Ascent" "T1" "Win" none none) ++
      [wRowB].filterMap (parseRow ["T1", "T2"] "Cup" "Ascent" "T1" "Win" none none) :=
  c5_malformed_row_skip ["T1", "T2"] "Cup" "Ascent" "T1" "Win" none none wBadRow
    [wRow] [wRowB] (Or.inr (Or.inr (Or.inl rfl)))

/-- C6: with the date div text March 5, no machine-readable timestamp, and
current year 2025, extract_date_from_match_page returns 2025-03-05. -/
theorem c6_date_fallback_current_year :
    extract_date_from_match_page 2025 (some { dataUtcTs := none, text := "March 5" })
      none = some "2025-03-05" := by
  decide

/-- C7: a dry run returns exactly the fetched record list and leaves the
store untouched; add_matches_batch is never reached. -/
theorem c7_dry_run_no_ingestion (fetchT : Int → List MatchRecord)
    (fetchAll : List MatchRecord) (tids : Option (List Int)) (db : DB) :
    run_scraper fetchT fetchAll tids true db = (collectMatches fetchT fetchAll tids, db) :=
  rfl

/-- One orchestrator step only appends records tagged with the tournament
id. -/
theorem fetchTournamentStep_tagged (cy : Nat) (pages : String → Option String)
    (soupOf : String → Soup) (tid : Int) (acc : List MatchRecord) (url : String)
    (hacc : ∀ r ∈ acc, r.tournamentId = some tid) :
    ∀ r ∈ fetchTournamentStep cy pages soupOf tid acc url,
      r.tournamentId = some tid := by
  intro r hr
  unfold fetchTournamentStep at hr
  cases hp : truthyOpt (pages url) with
  | none =>
    simp only [hp] at hr
    exact hacc r hr
  | some html =>
    simp only [hp] at hr
    by_cases he : ((parse_match_page cy (soupOf html) url).1).isEmpty = true
    · rw [if_pos he] at hr
      exact hacc r hr
    · rw [if_neg he] at hr
      rw [List.mem_append] at hr
      cases hr with
      | inl h2 => exact hacc r h2
      | inr h2 =>
        obtain ⟨m, _, rfl⟩ := List.mem_map.mp h2
        rfl

theorem fetchFoldl_tagged (cy : Nat) (pages : String → Option String)
    (soupOf : String → Soup) (tid : Int) :
    ∀ (urls : List String) (acc : List MatchRecord),
    (∀ r ∈ acc, r.tournamentId = some tid) →
    ∀ r ∈ urls.foldl (fetchTournamentStep cy pages soupOf tid) acc,
      r.tournamentId = some tid := by
  intro urls
  induction urls with
  | nil => intro acc hacc; simpa using hacc
  | cons u rest ih =>
    intro acc hacc
    rw [List.foldl_cons]
    exact ih _ (fetchTournamentStep_tagged cy pages soupOf tid acc u hacc)

/-- C8: every record returned by fetch_tournament_data carries the
tournament id it was fetched for. -/
theorem c8_tournament_id_tagging (cy : Nat) (pages : String → Option String)
    (listingOf : String → ListingPage) (soupOf : String → Soup) (tid : Int) :
    ∀ r ∈ fetch_tournament_data cy pages listingOf soupOf tid,
      r.tournamentId = some tid := by
  unfold fetch_tournament_data
  exact fetchFoldl_tagged cy pages soupOf tid
    (get_match_page_urls pages listingOf tid) [] (by simp)

/-- C8 witness: the concrete one-tournament fixture; wRec is the record the
pipeline produces and it carries tournament id 5. -/
theorem c8_tournament_id_tagging_witness : wRec.tournamentId = some 5 :=
  c8_tournament_id_tagging 2025 wPages wListing wSoupOf 5 wRec (by decide)

end Scorigami
